import Mathlib

/-!
Verification of the Mindney Node.js SDK (repository `mindney/nodejs`).

The repository contains three near-duplicate variants of one small client:

* `src/src/index.ts` — `MindneySDK` with a configurable `endpoint` option,
  auth delivered as a socket.io `auth` payload, a private `execute` helper
  and a public `request` wrapper;
* `src/unnamed/part_000` (first class) — `MindneySDK` with a `debug` flag,
  a winston-backed `log` method, a fixed endpoint, auth delivered as extra
  polling headers, and the acknowledgment logic inlined into `request`;
* `src/unnamed/part_000` (second class) — a fixed-endpoint variant with
  `execute`/`request` split like the first file.

This file gives a shallow embedding of the data model and the operations:
envelopes discriminated by presence of a `code` field, the per-call promise
with its acknowledgment callback and shared transport `error` listener, the
constructor with its credential validation and single connection attempt,
and the debug-gated logging of the `part_000` variant.
-/

set_option autoImplicit false

namespace Mindney

/-- A reply envelope as seen by the acknowledgment callback.  In the
JavaScript source the reply is a dynamic object that is either an
`AIMessage` (`operation`, `data`) or an `AIErrorException` (`code`,
`message`); discrimination is by the runtime test `"code" in response`.
We model the dynamic object with one record of optional fields; a field
being `some` models its presence on the JavaScript object.  `U` is the
generic success-data type `T` of the source. -/
structure Envelope (U : Type) where
  code : Option Int
  message : Option String
  operation : Option String
  data : Option U
deriving DecidableEq

/-- How a pending call settles: `resolve(response)`, `reject(response)`
(error envelope from the acknowledgment), or `reject(error)` from the
shared transport `error` listener. -/
inductive Settled (U : Type) where
  | resolved (e : Envelope U)
  | rejectedEnvelope (e : Envelope U)
  | rejectedTransport (err : String)
deriving DecidableEq

/-- The state of one JavaScript promise: pending, or settled with an
outcome that can no longer change. -/
inductive PromiseState (U : Type) where
  | pending
  | settled (o : Settled U)
deriving DecidableEq

/-- The acknowledgment callback of `execute` in `src/src/index.ts`
(lines 141–147): `if ("code" in response) reject(response); else
resolve(response);`. -/
def ackCallback {U : Type} (e : Envelope U) : Settled U :=
  if e.code.isSome then Settled.rejectedEnvelope e else Settled.resolved e

/-- The acknowledgment callback inlined in `request` of the first
`part_000` class (lines 169–175); textually the same test and branches
as `execute` in `src/src/index.ts`. -/
def requestAckInline {U : Type} (e : Envelope U) : Settled U :=
  if e.code.isSome then Settled.rejectedEnvelope e else Settled.resolved e

/-- The acknowledgment callback of `execute` in the second `part_000`
class (lines 308–314); again the same test and branches. -/
def executeAckV2 {U : Type} (e : Envelope U) : Settled U :=
  if e.code.isSome then Settled.rejectedEnvelope e else Settled.resolved e

/-- JavaScript promise semantics: `resolve`/`reject` settle a pending
promise and are no-ops on an already settled one. -/
def settleOnce {U : Type} (p : PromiseState U) (o : Settled U) : PromiseState U :=
  match p with
  | PromiseState.pending => PromiseState.settled o
  | PromiseState.settled o0 => PromiseState.settled o0

/-- The request-executor state of one SDK instance: the promises created
by calls to `request`, in call order (the list index is the call id), and
the call ids that hold a listener on the shared socket `error` event.
`execute` registers such a listener on every call and never removes it. -/
structure CallsState (U : Type) where
  calls : List (PromiseState U)
  errorListeners : List Nat
deriving DecidableEq

/-- One call to the public `request` operation (via `execute`,
`src/src/index.ts` lines 137–153): a fresh pending promise is created,
the message is emitted with an acknowledgment callback correlated to this
call, and `this.socket.on("error", ...)` adds one more listener for this
call on the shared `error` event. -/
def requestStep {U : Type} (s : CallsState U) : CallsState U :=
  { calls := s.calls ++ [PromiseState.pending],
    errorListeners := s.errorListeners ++ [s.calls.length] }

/-- Settle the promise at index `i` (a no-op beyond the end of the list,
and a no-op on an already settled promise). -/
def settleAt {U : Type} (cs : List (PromiseState U)) (i : Nat) (o : Settled U) :
    List (PromiseState U) :=
  match cs, i with
  | [], _ => []
  | p :: rest, 0 => settleOnce p o :: rest
  | p :: rest, Nat.succ j => p :: settleAt rest j o

/-- Transport events that can settle pending calls: the per-call
acknowledgment (correlated by the transport to the emitting call), and the
shared socket `error` event. -/
inductive SocketEvent (U : Type) where
  | ack (i : Nat) (e : Envelope U)
  | errorEvent (err : String)
deriving DecidableEq

/-- Event dispatch.  An acknowledgment for call `i` runs that call's
acknowledgment callback (`ackCallback`).  A socket `error` event runs
every registered per-call error listener, each of which does
`reject(error)` on its own call's promise. -/
def dispatch {U : Type} (s : CallsState U) (ev : SocketEvent U) : CallsState U :=
  match ev with
  | SocketEvent.ack i e =>
      { s with calls := settleAt s.calls i (ackCallback e) }
  | SocketEvent.errorEvent err =>
      let fire := fun (cs : List (PromiseState U)) (i : Nat) =>
        settleAt cs i (Settled.rejectedTransport err)
      { s with calls := s.errorListeners.foldl fire s.calls }

/-- Run a sequence of transport events against a request-executor state. -/
def runEvents {U : Type} (s : CallsState U) (evs : List (SocketEvent U)) : CallsState U :=
  evs.foldl dispatch s

/-- The state after `n` calls to `request` on a fresh instance, with no
transport event delivered yet. -/
def requestN (U : Type) : Nat → CallsState U
  | 0 => { calls := [], errorListeners := [] }
  | Nat.succ n => requestStep (requestN U n)

/-- The constructor configuration of `src/src/index.ts` (interface
`MindneyConfig`): three credential strings and an optional endpoint.
The TypeScript fields are declared `string`, but at runtime a caller can
omit one (then it is `undefined`); we model a possibly missing string as
`Option String`, with `none` for `undefined`. -/
structure MindneyConfig where
  clientId : Option String
  apiKey : Option String
  secretToken : Option String
  endpoint : Option String
deriving DecidableEq

/-- JavaScript falsiness of a string-or-undefined value `!x`: `undefined`
and the empty string are falsy, every other string (including
whitespace-only strings such as `" "`) is truthy. -/
def strFalsy : Option String → Bool
  | none => true
  | some s => s == ""

/-- `validateCredentials` (`src/src/index.ts` lines 99–103): throws
when any of the three stored credentials is falsy. -/
def validateCredentials (clientId apiKey secretToken : Option String) :
    Except String Unit :=
  if strFalsy clientId || strFalsy apiKey || strFalsy secretToken then
    Except.error "Client ID, API key, and secret token are required"
  else
    Except.ok ()

/-- The credential and endpoint fields stored on a constructed
`MindneySDK` instance (all `readonly` in the source). -/
structure SDKState where
  endpoint : String
  clientId : String
  apiKey : String
  secretToken : String
deriving DecidableEq

/-- Externally visible side effects of construction, in order. -/
inductive Effect where
  /-- The single `io(endpoint, auth)` call: one connection attempt to
  `endpoint` carrying the three credentials in the handshake. -/
  | connect (endpoint clientId apiKey secretToken : String)
  /-- `initializeSocket`: registration of the connect / connect-error /
  disconnect lifecycle observers. -/
  | registerLifecycleHandlers
deriving DecidableEq

/-- Whether an effect is a connection attempt. -/
def isConnectEffect : Effect → Bool
  | Effect.connect _ _ _ _ => true
  | Effect.registerLifecycleHandlers => false

/-- The `MindneySDK` constructor (`src/src/index.ts` lines 77–92).  It
assigns `endpoint = config.endpoint ?? "https://ai.mindney.com"` and the
three credentials, then calls `validateCredentials` (throwing discards the
instance and performs no I/O), then calls `io(...)` exactly once and
registers the lifecycle handlers.  The returned effect list records the
side effects in program order; a thrown error produces no state and no
effects. -/
def construct (config : MindneyConfig) : Except String (SDKState × List Effect) :=
  let endpoint := config.endpoint.getD "https://ai.mindney.com"
  let clientId := config.clientId.getD ""
  let apiKey := config.apiKey.getD ""
  let secretToken := config.secretToken.getD ""
  match validateCredentials config.clientId config.apiKey config.secretToken with
  | Except.error msg => Except.error msg
  | Except.ok _ =>
      Except.ok
        ({ endpoint := endpoint, clientId := clientId, apiKey := apiKey,
           secretToken := secretToken },
         [Effect.connect endpoint clientId apiKey secretToken,
          Effect.registerLifecycleHandlers])

/-- Log severities of the `part_000` `log` method. -/
inductive LogLevel where
  | error
  | info
  | warning
deriving DecidableEq

/-- The `log` method of the first `part_000` class (lines 116–126),
modelled by the list of sink invocations it performs: `if (!this.debug)
return;` suppresses the call entirely, otherwise exactly one
`logger.error` / `logger.info` / `logger.warn` invocation happens. -/
def log (debug : Bool) (type : LogLevel) (text : String) :
    List (LogLevel × String) :=
  if !debug then [] else [(type, text)]

/-- Sink invocations of the `connect` lifecycle observer
(`initializeSocket`, `part_000` lines 134–136). -/
def onConnectLog (debug : Bool) : List (LogLevel × String) :=
  log debug LogLevel.info "Successfully connected to Sidney."

/-- Sink invocations of the `connect_error` lifecycle observer
(`part_000` lines 138–144): two error log calls, the second with the
serialized error detail. -/
def onConnectErrorLog (debug : Bool) (errSerialized : String) :
    List (LogLevel × String) :=
  log debug LogLevel.error
      "An error occurred while establishing a connection with Sidney."
    ++ log debug LogLevel.error errSerialized

/-- Sink invocations of the `disconnect` lifecycle observer
(`part_000` lines 146–148). -/
def onDisconnectLog (debug : Bool) (reason : String) :
    List (LogLevel × String) :=
  log debug LogLevel.info ("Disconnected from Sidney, reason: " ++ reason)

/-- Sink invocations of the per-call informational log emitted by
`request` before sending (`part_000` lines 162–165). -/
def requestEntryLog (debug : Bool) (prompt ctxSerialized : String) :
    List (LogLevel × String) :=
  log debug LogLevel.info
    ("Executing prompt: \"" ++ prompt ++ "\" | Context: " ++ ctxSerialized)

/-- Sink invocations of the per-call transport-error listener
(`part_000` lines 178–182): two error log calls before rejecting. -/
def requestErrorLog (debug : Bool) (errSerialized : String) :
    List (LogLevel × String) :=
  log debug LogLevel.error "An error occurred while performing an prompt"
    ++ log debug LogLevel.error errSerialized

/-! ## Basic lemmas about the promise/event model -/

theorem settleAt_length {U : Type} (cs : List (PromiseState U)) (i : Nat) (o : Settled U) :
    (settleAt cs i o).length = cs.length := by
  induction cs generalizing i with
  | nil => rfl
  | cons p rest ih =>
    cases i with
    | zero => rfl
    | succ j => simp [settleAt, ih]

theorem settleAt_getD_ne {U : Type} (cs : List (PromiseState U)) (i j : Nat) (o : Settled U)
    (h : i ≠ j) :
    (settleAt cs i o).getD j PromiseState.pending = cs.getD j PromiseState.pending := by
  induction cs generalizing i j with
  | nil => rfl
  | cons p rest ih =>
    cases i with
    | zero =>
      cases j with
      | zero => exact absurd rfl h
      | succ j' => rfl
    | succ i' =>
      cases j with
      | zero => rfl
      | succ j' =>
        show (settleAt rest i' o).getD j' PromiseState.pending = rest.getD j' PromiseState.pending
        exact ih i' j' (fun hh => h (by omega))

theorem settleAt_getD_eq {U : Type} (cs : List (PromiseState U)) (i : Nat) (o : Settled U)
    (hi : i < cs.length) :
    (settleAt cs i o).getD i PromiseState.pending
      = settleOnce (cs.getD i PromiseState.pending) o := by
  induction cs generalizing i with
  | nil => simp at hi
  | cons p rest ih =>
    cases i with
    | zero => rfl
    | succ j =>
      show (settleAt rest j o).getD j PromiseState.pending = _
      exact ih j (by simpa using hi)

theorem lt_length_of_getD_settled {U : Type} (cs : List (PromiseState U)) (j : Nat)
    (o0 : Settled U)
    (h : cs.getD j PromiseState.pending = PromiseState.settled o0) : j < cs.length := by
  by_contra hc
  rw [List.getD_eq_default] at h
  · exact PromiseState.noConfusion h
  · omega

theorem foldl_settle_preserves_settled {U : Type} (L : List Nat) (cs : List (PromiseState U))
    (j : Nat) (o o0 : Settled U)
    (h : cs.getD j PromiseState.pending = PromiseState.settled o0) :
    (L.foldl (fun cs i => settleAt cs i o) cs).getD j PromiseState.pending
      = PromiseState.settled o0 := by
  induction L generalizing cs with
  | nil => exact h
  | cons a L ih =>
    rw [List.foldl_cons]
    apply ih
    by_cases haj : a = j
    · subst haj
      rw [settleAt_getD_eq cs a o (lt_length_of_getD_settled cs a o0 h), h]
      rfl
    · rw [settleAt_getD_ne cs a j o haj]
      exact h

theorem foldl_settle_rejects {U : Type} (L : List Nat) (cs : List (PromiseState U))
    (j : Nat) (o : Settled U) (hj : j ∈ L) (hlen : j < cs.length)
    (hp : cs.getD j PromiseState.pending = PromiseState.pending) :
    (L.foldl (fun cs i => settleAt cs i o) cs).getD j PromiseState.pending
      = PromiseState.settled o := by
  induction L generalizing cs with
  | nil => simp at hj
  | cons a L ih =>
    rw [List.foldl_cons]
    by_cases haj : a = j
    · subst haj
      apply foldl_settle_preserves_settled
      rw [settleAt_getD_eq cs a o hlen, hp]
      rfl
    · rcases List.mem_cons.mp hj with h1 | h2
      · exact absurd h1.symm haj
      · refine ih (settleAt cs a o) h2 ?_ ?_
        · rw [settleAt_length]
          exact hlen
        · rw [settleAt_getD_ne cs a j o haj]
          exact hp

theorem requestN_calls (U : Type) (n : Nat) :
    (requestN U n).calls = List.replicate n (PromiseState.pending : PromiseState U) := by
  induction n with
  | zero => rfl
  | succ n ih =>
    show (requestN U n).calls ++ [PromiseState.pending] = _
    rw [ih, List.replicate_succ']

theorem requestN_errorListeners (U : Type) (n : Nat) :
    (requestN U n).errorListeners = List.range n := by
  induction n with
  | zero => rfl
  | succ n ih =>
    show (requestN U n).errorListeners ++ [(requestN U n).calls.length] = _
    rw [ih, requestN_calls, List.length_replicate, List.range_succ]

theorem getD_replicate_pending {U : Type} (n i : Nat) :
    (List.replicate n (PromiseState.pending : PromiseState U)).getD i PromiseState.pending
      = PromiseState.pending := by
  induction n generalizing i with
  | zero => cases i <;> rfl
  | succ n ih =>
    cases i with
    | zero => rfl
    | succ j =>
      rw [List.replicate_succ]
      exact ih j

theorem runEvents_cons {U : Type} (s : CallsState U) (ev : SocketEvent U)
    (evs : List (SocketEvent U)) :
    runEvents s (ev :: evs) = runEvents (dispatch s ev) evs := rfl

/-! ## Claims -/

/-- C1: when the acknowledgment callback for a pending call fires with an
envelope `e`, the call's promise rejects with exactly `e` if `e` has a
`code` field, and resolves with exactly `e` (its `operation` and `data`
unchanged) if `e` has no `code` field. -/
theorem c1_ack_classification {U : Type} (s : CallsState U) (i : Nat) (e : Envelope U)
    (hi : i < s.calls.length)
    (hp : s.calls.getD i PromiseState.pending = PromiseState.pending) :
    (dispatch s (SocketEvent.ack i e)).calls.getD i PromiseState.pending
      = PromiseState.settled
          (if e.code.isSome then Settled.rejectedEnvelope e else Settled.resolved e) := by
  show (settleAt s.calls i (ackCallback e)).getD i PromiseState.pending = _
  rw [settleAt_getD_eq s.calls i (ackCallback e) hi, hp]
  rfl

/-- Witness for C1, mirroring the spec's examples: an acknowledgment
`(operation := "echo", data := 1)` resolves with that exact envelope, and
`(code := 404, message := "not found")` rejects with that exact envelope. -/
theorem c1_ack_classification_witness :
    (0 < (requestN Nat 1).calls.length ∧
      (requestN Nat 1).calls.getD 0 PromiseState.pending = PromiseState.pending) ∧
    (dispatch (requestN Nat 1)
        (SocketEvent.ack 0 ⟨none, none, some "echo", some 1⟩)).calls.getD 0
        PromiseState.pending
      = PromiseState.settled (Settled.resolved ⟨none, none, some "echo", some 1⟩) ∧
    (dispatch (requestN Nat 1)
        (SocketEvent.ack 0 ⟨some 404, some "not found", none, none⟩)).calls.getD 0
        PromiseState.pending
      = PromiseState.settled
          (Settled.rejectedEnvelope ⟨some 404, some "not found", none, none⟩) := by
  refine ⟨⟨by decide, by decide⟩, ?_, ?_⟩
  · simpa using
      c1_ack_classification (requestN Nat 1) 0 ⟨none, none, some "echo", some 1⟩
        (by decide) (by decide)
  · simpa using
      c1_ack_classification (requestN Nat 1) 0 ⟨some 404, some "not found", none, none⟩
        (by decide) (by decide)

/-- C3: an envelope carrying both a `code` field and an `operation` field
is classified as an error: the `code` presence check takes precedence. -/
theorem c3_code_precedence {U : Type} (e : Envelope U)
    (hcode : e.code.isSome = true) (hop : e.operation.isSome = true) :
    ackCallback e = Settled.rejectedEnvelope e := by
  simp [ackCallback, hcode]

/-- Witness for C3 at an envelope that has `code`, `message`, `operation`
and `data` all present. -/
theorem c3_code_precedence_witness :
    ((⟨some 404, some "not found", some "echo", some 1⟩ : Envelope Nat).code.isSome = true) ∧
    ((⟨some 404, some "not found", some "echo", some 1⟩ : Envelope Nat).operation.isSome
      = true) ∧
    ackCallback (⟨some 404, some "not found", some "echo", some 1⟩ : Envelope Nat)
      = Settled.rejectedEnvelope ⟨some 404, some "not found", some "echo", some 1⟩ :=
  ⟨rfl, rfl, c3_code_precedence _ rfl rfl⟩

/-- C10: the `execute`-based variants and the inline variant classify
acknowledgment envelopes identically: every variant rejects exactly when
the envelope has a `code` field and resolves with the unchanged envelope
otherwise. -/
theorem c10_variants_equivalent {U : Type} (e : Envelope U) :
    requestAckInline e = ackCallback e ∧
    executeAckV2 e = ackCallback e ∧
    ackCallback e
      = (if e.code.isSome then Settled.rejectedEnvelope e else Settled.resolved e) :=
  ⟨rfl, rfl, rfl⟩

/-- C4: after `n ≥ 1` calls to `request` on a fresh instance, `n` error
listeners sit on the shared socket `error` event (one per call, never
removed), so a single transport `error` event firing once rejects every
pending call's promise. -/
theorem c4_error_fanout {U : Type} (n : Nat) (err : String) (i : Nat)
    (hn : 1 ≤ n) (hi : i < n) :
    (requestN U n).errorListeners.length = n ∧
    (requestN U n).calls.getD i PromiseState.pending = PromiseState.pending ∧
    (dispatch (requestN U n) (SocketEvent.errorEvent err)).calls.getD i
        PromiseState.pending
      = PromiseState.settled (Settled.rejectedTransport err) := by
  refine ⟨?_, ?_, ?_⟩
  · rw [requestN_errorListeners]
    exact List.length_range n
  · rw [requestN_calls]
    exact getD_replicate_pending n i
  · show ((requestN U n).errorListeners.foldl
        (fun cs i => settleAt cs i (Settled.rejectedTransport err))
        (requestN U n).calls).getD i PromiseState.pending = _
    refine foldl_settle_rejects _ _ i (Settled.rejectedTransport err) ?_ ?_ ?_
    · rw [requestN_errorListeners]
      exact List.mem_range.mpr hi
    · rw [requestN_calls, List.length_replicate]
      exact hi
    · rw [requestN_calls]
      exact getD_replicate_pending n i

/-- Witness for C4: two concurrent pending calls A (id 0) and B (id 1);
one transport error event fires once; both promises reject. -/
theorem c4_error_fanout_witness :
    (1 ≤ 2 ∧ 0 < 2 ∧ 1 < 2) ∧
    (dispatch (requestN Nat 2) (SocketEvent.errorEvent "transport failure")).calls.getD 0
        PromiseState.pending
      = PromiseState.settled (Settled.rejectedTransport "transport failure") ∧
    (dispatch (requestN Nat 2) (SocketEvent.errorEvent "transport failure")).calls.getD 1
        PromiseState.pending
      = PromiseState.settled (Settled.rejectedTransport "transport failure") :=
  ⟨⟨by decide, by decide, by decide⟩,
   (c4_error_fanout (U := Nat) 2 "transport failure" 0 (by decide) (by decide)).2.2,
   (c4_error_fanout (U := Nat) 2 "transport failure" 1 (by decide) (by decide)).2.2⟩

/-- A single dispatched event never changes an already settled promise:
the acknowledgment path and every error listener go through the promise's
`resolve`/`reject`, which are no-ops after settlement. -/
theorem dispatch_preserves_settled {U : Type} (s : CallsState U) (i : Nat) (o : Settled U)
    (ev : SocketEvent U)
    (hs : s.calls.getD i PromiseState.pending = PromiseState.settled o) :
    (dispatch s ev).calls.getD i PromiseState.pending = PromiseState.settled o := by
  cases ev with
  | ack j e =>
    show (settleAt s.calls j (ackCallback e)).getD i PromiseState.pending = _
    by_cases hji : j = i
    · subst hji
      rw [settleAt_getD_eq s.calls j (ackCallback e)
          (lt_length_of_getD_settled s.calls j o hs), hs]
      rfl
    · rw [settleAt_getD_ne s.calls j i (ackCallback e) hji]
      exact hs
  | errorEvent err =>
    show (s.errorListeners.foldl
        (fun cs i => settleAt cs i (Settled.rejectedTransport err)) s.calls).getD i
        PromiseState.pending = _
    exact foldl_settle_preserves_settled s.errorListeners s.calls i
      (Settled.rejectedTransport err) o hs

/-- C9: a pending operation settles at most once: once a call's promise is
settled with an outcome, any later sequence of events (late or duplicate
acknowledgments, transport error events) leaves that outcome unchanged. -/
theorem c9_settled_outcome_stable {U : Type} (s : CallsState U) (i : Nat) (o : Settled U)
    (evs : List (SocketEvent U))
    (hs : s.calls.getD i PromiseState.pending = PromiseState.settled o) :
    (runEvents s evs).calls.getD i PromiseState.pending = PromiseState.settled o := by
  induction evs generalizing s with
  | nil => exact hs
  | cons ev evs ih =>
    rw [runEvents_cons]
    exact ih (dispatch s ev) (dispatch_preserves_settled s i o ev hs)

/-- Witness for C9: a call resolved by its acknowledgment stays resolved
with the same envelope through a duplicate (now error-shaped)
acknowledgment and a transport error event. -/
theorem c9_settled_outcome_stable_witness :
    ((dispatch (requestN Nat 1) (SocketEvent.ack 0 ⟨none, none, none, some 7⟩)).calls.getD 0
        PromiseState.pending
      = PromiseState.settled (Settled.resolved ⟨none, none, none, some 7⟩)) ∧
    (runEvents
        (dispatch (requestN Nat 1) (SocketEvent.ack 0 ⟨none, none, none, some 7⟩))
        [SocketEvent.ack 0 ⟨some 500, none, none, none⟩,
         SocketEvent.errorEvent "late transport failure"]).calls.getD 0
        PromiseState.pending
      = PromiseState.settled (Settled.resolved ⟨none, none, none, some 7⟩) := by
  refine ⟨by decide, ?_⟩
  exact c9_settled_outcome_stable
    (dispatch (requestN Nat 1) (SocketEvent.ack 0 ⟨none, none, none, some 7⟩)) 0
    (Settled.resolved ⟨none, none, none, some 7⟩)
    [SocketEvent.ack 0 ⟨some 500, none, none, none⟩,
     SocketEvent.errorEvent "late transport failure"]
    (by decide)

/-- C7: a call whose acknowledgment never fires and in whose lifetime no
transport `error` event fires stays pending forever: no timeout, retry or
cancellation exists in this component. -/
theorem c7_no_timeout {U : Type} (s : CallsState U) (i : Nat) (evs : List (SocketEvent U))
    (hp : s.calls.getD i PromiseState.pending = PromiseState.pending)
    (hack : ∀ e : Envelope U, SocketEvent.ack i e ∉ evs)
    (herr : ∀ msg : String, SocketEvent.errorEvent msg ∉ evs) :
    (runEvents s evs).calls.getD i PromiseState.pending = PromiseState.pending := by
  induction evs generalizing s with
  | nil => exact hp
  | cons ev evs ih =>
    rw [runEvents_cons]
    cases ev with
    | ack j e =>
      have hji : j ≠ i := by
        intro hcontra
        subst hcontra
        exact hack e (List.mem_cons_self _ _)
      refine ih (dispatch s (SocketEvent.ack j e)) ?_ ?_ ?_
      · show (settleAt s.calls j (ackCallback e)).getD i PromiseState.pending = _
        rw [settleAt_getD_ne s.calls j i (ackCallback e) hji]
        exact hp
      · intro e' he'
        exact hack e' (List.mem_cons_of_mem _ he')
      · intro m hm
        exact herr m (List.mem_cons_of_mem _ hm)
    | errorEvent msg => exact absurd (List.mem_cons_self _ _) (herr msg)

/-- Witness for C7: call 0 of two in-flight calls sees neither its own
acknowledgment nor any transport error (only call 1's acknowledgment
arrives) and remains pending. -/
theorem c7_no_timeout_witness :
    ((requestN Nat 2).calls.getD 0 PromiseState.pending = PromiseState.pending) ∧
    (runEvents (requestN Nat 2)
        [SocketEvent.ack 1 ⟨none, none, none, some 5⟩]).calls.getD 0
        PromiseState.pending = PromiseState.pending := by
  refine ⟨by decide, ?_⟩
  apply c7_no_timeout
  · decide
  · intro e he
    simp only [List.mem_singleton] at he
    injection he with h1 h2
    exact absurd h1 (by decide)
  · intro m hm
    simp at hm

/-- C2: when any of `clientId`, `apiKey`, `secretToken` is falsy (missing
or empty), construction throws the configuration error synchronously and
before any network I/O: the result is the error alone — no session object
and no effect (in particular no connection attempt) is produced. -/
theorem c2_missing_credential_fatal (config : MindneyConfig)
    (h : strFalsy config.clientId = true ∨ strFalsy config.apiKey = true ∨
         strFalsy config.secretToken = true) :
    construct config = Except.error "Client ID, API key, and secret token are required" ∧
    ∀ r : SDKState × List Effect, construct config ≠ Except.ok r := by
  have hv : validateCredentials config.clientId config.apiKey config.secretToken
      = Except.error "Client ID, API key, and secret token are required" := by
    unfold validateCredentials
    rcases h with h | h | h <;> simp [h]
  have hc : construct config
      = Except.error "Client ID, API key, and secret token are required" := by
    unfold construct
    rw [hv]
  refine ⟨hc, fun r hr => ?_⟩
  rw [hc] at hr
  exact Except.noConfusion hr

/-- Witness for C2: an empty `clientId` with the other two credentials
present aborts construction with the configuration error. -/
theorem c2_missing_credential_fatal_witness :
    (strFalsy (some "") = true ∨ strFalsy (some "key") = true ∨
      strFalsy (some "tok") = true) ∧
    construct
        { clientId := some "", apiKey := some "key", secretToken := some "tok",
          endpoint := none }
      = Except.error "Client ID, API key, and secret token are required" :=
  ⟨Or.inl (by decide),
   (c2_missing_credential_fatal
      { clientId := some "", apiKey := some "key", secretToken := some "tok",
        endpoint := none }
      (Or.inl (by decide))).1⟩

/-- C6: with all three credentials present (non-falsy), construction
succeeds and performs exactly one connection attempt, directed at the
configured endpoint when one is supplied and at the default
`https://ai.mindney.com` otherwise. -/
theorem c6_construct_connects_once (config : MindneyConfig) (c a t : String)
    (hc : config.clientId = some c) (ha : config.apiKey = some a)
    (ht : config.secretToken = some t)
    (hc0 : c ≠ "") (ha0 : a ≠ "") (ht0 : t ≠ "") :
    construct config = Except.ok
      ({ endpoint := config.endpoint.getD "https://ai.mindney.com",
         clientId := c, apiKey := a, secretToken := t },
       [Effect.connect (config.endpoint.getD "https://ai.mindney.com") c a t,
        Effect.registerLifecycleHandlers]) ∧
    List.countP isConnectEffect
      [Effect.connect (config.endpoint.getD "https://ai.mindney.com") c a t,
       Effect.registerLifecycleHandlers] = 1 := by
  have hv : validateCredentials config.clientId config.apiKey config.secretToken
      = Except.ok () := by
    unfold validateCredentials
    rw [hc, ha, ht]
    simp [strFalsy, hc0, ha0, ht0]
  constructor
  · unfold construct
    rw [hv, hc, ha, ht]
    rfl
  · simp [List.countP_cons, isConnectEffect]

/-- Witness for C6: construction once with the endpoint absent (connects
to the default URL) and once with an explicit endpoint (connects there). -/
theorem c6_construct_connects_once_witness :
    construct
        { clientId := some "id", apiKey := some "key", secretToken := some "tok",
          endpoint := none }
      = Except.ok
        ({ endpoint := "https://ai.mindney.com", clientId := "id", apiKey := "key",
           secretToken := "tok" },
         [Effect.connect "https://ai.mindney.com" "id" "key" "tok",
          Effect.registerLifecycleHandlers]) ∧
    construct
        { clientId := some "id", apiKey := some "key", secretToken := some "tok",
          endpoint := some "https://example.test" }
      = Except.ok
        ({ endpoint := "https://example.test", clientId := "id", apiKey := "key",
           secretToken := "tok" },
         [Effect.connect "https://example.test" "id" "key" "tok",
          Effect.registerLifecycleHandlers]) :=
  ⟨(c6_construct_connects_once
      { clientId := some "id", apiKey := some "key", secretToken := some "tok",
        endpoint := none }
      "id" "key" "tok" rfl rfl rfl (by decide) (by decide) (by decide)).1,
   (c6_construct_connects_once
      { clientId := some "id", apiKey := some "key", secretToken := some "tok",
        endpoint := some "https://example.test" }
      "id" "key" "tok" rfl rfl rfl (by decide) (by decide) (by decide)).1⟩

/-- C8 counterexample: `validateCredentials` only tests JavaScript
falsiness (`!s`), so a whitespace-only credential such as `" "` passes.
Construction with `clientId = " "` succeeds and stores the whitespace-only
string, contradicting the claim that the stored credentials are never
whitespace-only and that a whitespace-only credential is a fatal
construction-time error. -/
theorem c8_whitespace_accepted :
    Except.map (fun p => p.1.clientId)
        (construct
          { clientId := some " ", apiKey := some "key", secretToken := some "tok",
            endpoint := none })
      = Except.ok " " ∧
    " ".toList.all Char.isWhitespace = true :=
  ⟨rfl, by decide⟩

/-- A non-falsy optional string holds a non-empty string. -/
theorem getD_ne_empty_of_not_falsy (o : Option String) (h : strFalsy o = false) :
    o.getD "" ≠ "" := by
  cases o with
  | none => simp [strFalsy] at h
  | some s =>
    simp only [strFalsy, beq_eq_false_iff_ne, ne_eq] at h
    simpa using h

/-- C8 (amended): after any successful construction the stored
credentials are all non-empty (the source rejects exactly the falsy ones:
missing or empty strings; whitespace-only credentials are accepted).  The
stored fields are `readonly` in the source and the embedding's state is
immutable by construction. -/
theorem c8_nonempty_invariant (config : MindneyConfig) (st : SDKState)
    (effs : List Effect)
    (h : construct config = Except.ok (st, effs)) :
    st.clientId ≠ "" ∧ st.apiKey ≠ "" ∧ st.secretToken ≠ "" := by
  unfold construct validateCredentials at h
  by_cases hv : (strFalsy config.clientId || strFalsy config.apiKey ||
      strFalsy config.secretToken) = true
  · rw [if_pos hv] at h
    exact Except.noConfusion h
  · rw [if_neg hv] at h
    injection h with h2
    injection h2 with hst heff
    subst hst
    simp only [Bool.or_eq_true, not_or, Bool.not_eq_true] at hv
    exact ⟨getD_ne_empty_of_not_falsy _ hv.1.1,
           getD_ne_empty_of_not_falsy _ hv.1.2,
           getD_ne_empty_of_not_falsy _ hv.2⟩

/-- Witness for C8 (amended), applied to a successful construction. -/
theorem c8_nonempty_invariant_witness :
    construct
        { clientId := some "id", apiKey := some "key", secretToken := some "tok",
          endpoint := none }
      = Except.ok
        ({ endpoint := "https://ai.mindney.com", clientId := "id", apiKey := "key",
           secretToken := "tok" },
         [Effect.connect "https://ai.mindney.com" "id" "key" "tok",
          Effect.registerLifecycleHandlers]) ∧
    ("id" : String) ≠ "" ∧ ("key" : String) ≠ "" ∧ ("tok" : String) ≠ "" :=
  ⟨rfl,
   c8_nonempty_invariant
     { clientId := some "id", apiKey := some "key", secretToken := some "tok",
       endpoint := none }
     { endpoint := "https://ai.mindney.com", clientId := "id", apiKey := "key",
       secretToken := "tok" }
     [Effect.connect "https://ai.mindney.com" "id" "key" "tok",
      Effect.registerLifecycleHandlers]
     rfl⟩

/-- C5: with the debug flag false, every logging site of the component —
the connect, connect-error and disconnect lifecycle observers and the two
per-call logging sites — invokes the logging sink zero times.  `log` is a
total function whose only output is the sink-invocation list, so in the
embedding it cannot throw and touches no connection state. -/
theorem c5_debug_off_silences_logging (errSerialized reason prompt ctxSerialized : String) :
    onConnectLog false = [] ∧
    onConnectErrorLog false errSerialized = [] ∧
    onDisconnectLog false reason = [] ∧
    requestEntryLog false prompt ctxSerialized = [] ∧
    requestErrorLog false errSerialized = [] ∧
    (∀ (type : LogLevel) (text : String), log false type text = []) :=
  ⟨rfl, rfl, rfl, rfl, rfl, fun _ _ => rfl⟩

end Mindney
